import Mathlib

/-!
Verification of the Google Ads budget-analysis tool (calculator, validators,
persistence contract) against its natural-language specification.

Numbers are modelled as rationals (`ℚ`): every arithmetic operation in the
source (`calculator.py`, `helpers.py`) is a field operation on finite decimal
inputs, exact in `ℚ`.  A Python expression that can raise (the unguarded
division `budget / avg_cpc`) is modelled with `Option`: `none` is the raised
`ZeroDivisionError`.
-/

namespace AdsAnalyzer

/-- The two business categories accepted by the calculator
(`calculator.py`, the keys of the constant range tables). -/
inductive Category : Type
  | ecommerce
  | services
deriving DecidableEq, Repr

/-- A min/max range, one row of the constant tables in `calculator.py`. -/
structure MMRange where
  min : ℚ
  max : ℚ
deriving DecidableEq, Repr

/-- `CPC_RANGES` from `calculator.py` (UAH per click). -/
def CPC_RANGES : Category → MMRange
  | .ecommerce => ⟨5, 15⟩
  | .services => ⟨8, 20⟩

/-- `CTR_RANGES` from `calculator.py` (click-through rate, a fraction). -/
def CTR_RANGES : Category → MMRange
  | .ecommerce => ⟨2/100, 4/100⟩
  | .services => ⟨15/1000, 35/1000⟩

/-- `CONVERSION_RATE_RANGES` from `calculator.py` (a fraction). -/
def CONVERSION_RATE_RANGES : Category → MMRange
  | .ecommerce => ⟨1/100, 3/100⟩
  | .services => ⟨3/100, 7/100⟩

/-- `AVG_ORDER_VALUE_RANGES` from `calculator.py` (UAH). -/
def AVG_ORDER_VALUE_RANGES : Category → MMRange
  | .ecommerce => ⟨800, 2000⟩
  | .services => ⟨1500, 5000⟩

/-- `np.mean([a, b])`: the arithmetic mean of a two-element list. -/
def npMean2 (a b : ℚ) : ℚ := (a + b) / 2

/-- The optional `params` dict of `calculate_google_ads_metrics`: each of the
four keys the function reads may be present (`some`) or absent (`none`). -/
structure Overrides where
  avg_cpc : Option ℚ := none
  ctr : Option ℚ := none
  conversion_rate : Option ℚ := none
  avg_order_value : Option ℚ := none
deriving DecidableEq, Repr

/-- The `results` dict returned by `calculate_google_ads_metrics`. -/
structure Metrics where
  budget : ℚ
  avg_cpc : ℚ
  clicks : ℚ
  impressions : ℚ
  ctr : ℚ
  conversion_rate : ℚ
  conversions : ℚ
  cost_per_conversion : ℚ
  avg_order_value : ℚ
  revenue : ℚ
  roi : ℚ
  roas : ℚ
  daily_budget : ℚ
  monthly_revenue : ℚ
deriving DecidableEq, Repr

/-- `params.get('avg_cpc', np.mean([...min, ...max]))` in
`calculate_google_ads_metrics`. -/
def resolve_avg_cpc (business_type : Category) (params : Overrides) : ℚ :=
  params.avg_cpc.getD
    (npMean2 (CPC_RANGES business_type).min (CPC_RANGES business_type).max)

/-- `params.get('ctr', np.mean([...min, ...max]))`. -/
def resolve_ctr (business_type : Category) (params : Overrides) : ℚ :=
  params.ctr.getD
    (npMean2 (CTR_RANGES business_type).min (CTR_RANGES business_type).max)

/-- `params.get('conversion_rate', np.mean([...min, ...max]))`. -/
def resolve_conversion_rate (business_type : Category) (params : Overrides) : ℚ :=
  params.conversion_rate.getD
    (npMean2 (CONVERSION_RATE_RANGES business_type).min
      (CONVERSION_RATE_RANGES business_type).max)

/-- `params.get('avg_order_value', np.mean([...min, ...max]))`. -/
def resolve_avg_order_value (business_type : Category) (params : Overrides) : ℚ :=
  params.avg_order_value.getD
    (npMean2 (AVG_ORDER_VALUE_RANGES business_type).min
      (AVG_ORDER_VALUE_RANGES business_type).max)

/-- The `results` dict built by `calculate_google_ads_metrics` once all four
parameters are resolved (the non-raising branch of the source body). -/
def base_metrics (budget : ℚ) (business_type : Category)
    (params : Overrides) : Metrics :=
  let avg_cpc := resolve_avg_cpc business_type params
  let ctr := resolve_ctr business_type params
  let conversion_rate := resolve_conversion_rate business_type params
  let avg_order_value := resolve_avg_order_value business_type params
  let clicks := budget / avg_cpc
  let impressions := if 0 < ctr then clicks / ctr else 0
  let conversions := clicks * conversion_rate
  let revenue := conversions * avg_order_value
  let roi := if 0 < budget then (revenue - budget) / budget else 0
  let roas := if 0 < budget then revenue / budget else 0
  let cost_per_conversion := if 0 < conversions then budget / conversions else 0
  let daily_budget := budget / 30
  let monthly_revenue := revenue
  { budget := budget
    avg_cpc := avg_cpc
    clicks := clicks
    impressions := impressions
    ctr := ctr
    conversion_rate := conversion_rate
    conversions := conversions
    cost_per_conversion := cost_per_conversion
    avg_order_value := avg_order_value
    revenue := revenue
    roi := roi
    roas := roas
    daily_budget := daily_budget
    monthly_revenue := monthly_revenue }

/-- `calculate_google_ads_metrics(budget, business_type, params)` from
`calculator.py`.  Each parameter absent from `params` defaults to the mean of
its category range.  The division `clicks = budget / avg_cpc` has no zero
guard in the source and raises `ZeroDivisionError` when the resolved
`avg_cpc` is `0`; that raise is the `none` branch.  Every other division is
guarded (`if ctr > 0`, `if budget > 0`, `if conversions > 0`), so no other
input can raise. -/
def calculate_google_ads_metrics (budget : ℚ) (business_type : Category)
    (params : Overrides) : Option Metrics :=
  if resolve_avg_cpc business_type params = 0 then none
  else some (base_metrics budget business_type params)

/-- The `pessimistic_params` built by `generate_detailed_analysis`: the copy
of `params` has all four keys the calculator reads overwritten by
`update`, so only the forced values matter. -/
def pessimistic_params (business_type : Category) : Overrides where
  avg_cpc := some ((CPC_RANGES business_type).max * (11/10))
  ctr := some ((CTR_RANGES business_type).min * (9/10))
  conversion_rate := some ((CONVERSION_RATE_RANGES business_type).min * (9/10))
  avg_order_value := some ((AVG_ORDER_VALUE_RANGES business_type).min * (9/10))

/-- The `optimistic_params` built by `generate_detailed_analysis`. -/
def optimistic_params (business_type : Category) : Overrides where
  avg_cpc := some ((CPC_RANGES business_type).min * (9/10))
  ctr := some ((CTR_RANGES business_type).max * (11/10))
  conversion_rate := some ((CONVERSION_RATE_RANGES business_type).max * (11/10))
  avg_order_value := some ((AVG_ORDER_VALUE_RANGES business_type).max * (11/10))

/-- `generate_detailed_analysis(budget, business_type, params)` from
`calculator.py`: the (base, pessimistic, optimistic) triple.  A raise in any
of the three underlying calls propagates (`none`). -/
def generate_detailed_analysis (budget : ℚ) (business_type : Category)
    (params : Overrides) : Option (Metrics × Metrics × Metrics) := do
  let base_case ← calculate_google_ads_metrics budget business_type params
  let pessimistic_case ← calculate_google_ads_metrics budget business_type
    (pessimistic_params business_type)
  let optimistic_case ← calculate_google_ads_metrics budget business_type
    (optimistic_params business_type)
  return (base_case, pessimistic_case, optimistic_case)

/-! ### `helpers.py`: the validators

Strings are modelled as `List Char`.  `validate_budget` strips every
character that is not a digit or a dot and feeds what is left to Python's
`float(...)`; since the argument then contains only digits and dots,
`float` accepts it exactly when it has at most one dot and at least one
digit, and its value is exact in `ℚ`. -/

/-- Base-10 value of a digit list (how Python reads an integer literal). -/
def digitsToNat (l : List Char) : Nat :=
  l.foldl (fun a c => a * 10 + (c.toNat - 48)) 0

/-- Python's `float(s)` restricted to strings of digits and dots (the only
strings `validate_budget` ever passes to it): `none` is the raised
`ValueError`. -/
def parseFloatQ (l : List Char) : Option ℚ :=
  if l.count '.' = 0 then
    if l ≠ [] ∧ l.all Char.isDigit then some (digitsToNat l : ℚ) else none
  else if l.count '.' = 1 then
    let ip := l.takeWhile (fun c => c ≠ '.')
    let fp := (l.dropWhile (fun c => c ≠ '.')).tail
    if (ip ≠ [] ∨ fp ≠ []) ∧ ip.all Char.isDigit ∧ fp.all Char.isDigit then
      some ((digitsToNat ip : ℚ) + (digitsToNat fp : ℚ) / 10 ^ fp.length)
    else none
  else none

/-- `re.sub(r'[^\x5cd.]', '', budget)`: keep digits and dots only. -/
def stripNonNumeric (l : List Char) : List Char :=
  l.filter (fun c => c.isDigit || c == '.')

/-- `validate_budget(budget)` from `helpers.py`: `(valid, value)`. -/
def validate_budget (budget : List Char) : Bool × Option ℚ :=
  if budget = [] then (false, none)
  else
    match parseFloatQ (stripNonNumeric budget) with
    | none => (false, none)
    | some value => if value ≤ 0 then (false, none) else (true, some value)

/-- The `netloc` component `urllib.parse.urlparse` assigns to a string of
the form `scheme ++ "://" ++ rest`: everything up to the first `/`, `?`
or `#`. -/
def urlNetloc (rest : List Char) : List Char :=
  rest.takeWhile (fun c => !(c == '/' || c == '?' || c == '#'))

/-- `urlparse` raises `ValueError` ("Invalid IPv6 URL") when exactly one
of `[`, `]` occurs in the netloc; this is its consistency check. -/
def bracketsConsistent (netloc : List Char) : Bool :=
  netloc.contains '[' == netloc.contains ']'

/-- The substring whose `netloc` is read, after the source's normalization:
`validate_url` prepends `http://` unless the input starts with `http://`
or `https://`, and `urlparse` then reads the netloc from what follows the
scheme separator. -/
def schemeRest (url : List Char) : List Char :=
  if ("http://".data).isPrefixOf url then url.drop 7
  else if ("https://".data).isPrefixOf url then url.drop 8
  else url

/-- `validate_url(url)` from `helpers.py`.  After normalization the string
always starts with `http://` or `https://`, so `result.scheme` is always
truthy and the outcome is decided by `result.netloc` alone; a `ValueError`
from `urlparse` is caught by the bare `except` and yields `False`. -/
def validate_url (url : List Char) : Bool :=
  if url = [] then false
  else
    let netloc := urlNetloc (schemeRest url)
    bracketsConsistent netloc && !netloc.isEmpty

/-! ### `database.py` / `saved_analyses.py`: persistence contract

`AnalysisResult` rows are modelled as records, the table as a list of rows
in insertion order.  The transport (the session/query machinery) is
abstracted as a function from the global attempt index to `Option α`:
`none` is an exception escaping the query, `some v` a successful result
set.  Retry loops are modelled with explicit fuel equal to the source's
`max_retries`; each model returns the outcome, the number of underlying
attempts performed, and the list of `time.sleep` durations (seconds). -/

/-- One row of the `analysis_results` table (`class AnalysisResult` in
`database.py`).  Nullable columns are `Option`; `created_at` is an abstract
timestamp. -/
structure AnalysisRecord where
  id : Nat
  created_at : Nat
  website_url : String
  budget : Option ℚ
  business_type : String
  avg_cpc : Option ℚ
  ctr : Option ℚ
  conversion_rate : Option ℚ
  avg_order_value : Option ℚ
  clicks : Option ℚ
  impressions : Option ℚ
  conversions : Option ℚ
  cost_per_conversion : Option ℚ
  revenue : Option ℚ
  roi : Option ℚ
  roas : Option ℚ
  pessimistic_scenario : String
  optimistic_scenario : String
  notes : Option String
  is_saved : Bool
deriving DecidableEq, Repr

/-- `update_analysis_notes(analysis_id, notes, is_saved)` from
`database.py`, acting on the table state: `.filter(id == analysis_id)
.first()` finds the first matching row; if found, `notes` is overwritten,
`is_saved` only when the argument `is not None`, the transaction commits
and `True` is returned; otherwise nothing changes and `False` is
returned.  Result: (new table state, returned bool). -/
def update_analysis_notes : List AnalysisRecord → Nat → String → Option Bool →
    List AnalysisRecord × Bool
  | [], _, _, _ => ([], false)
  | r :: rs, analysis_id, notes, fav =>
    if r.id = analysis_id then
      ({ r with notes := some notes, is_saved := fav.getD r.is_saved } :: rs, true)
    else
      (r :: (update_analysis_notes rs analysis_id notes fav).1,
        (update_analysis_notes rs analysis_id notes fav).2)

/-- The `while retry_count < max_retries` loop of `get_all_analyses` in
`database.py`, with `fuel = max_retries - retry_count` and the doubling
`backoff_time`.  Returns (outcome, attempts made, sleeps performed): on
success the loop returns the rows after 1 attempt and no sleep; on failure
it sleeps `backoff_time` and doubles it only while another retry remains,
and re-raises (`none`) right after the final failed attempt. -/
def get_all_analyses_go (transport : Nat → Option α) :
    Nat → Nat → Nat → Option α × Nat × List Nat
  | 0, _, _ => (none, 0, [])
  | fuel + 1, i, backoff =>
    match transport i with
    | some v => (some v, 1, [])
    | none =>
      match fuel with
      | 0 => (none, 1, [])
      | _ + 1 =>
        ((get_all_analyses_go transport fuel (i + 1) (2 * backoff)).1,
          (get_all_analyses_go transport fuel (i + 1) (2 * backoff)).2.1 + 1,
          backoff :: (get_all_analyses_go transport fuel (i + 1) (2 * backoff)).2.2)

/-- `get_all_analyses` from `database.py` starting at global attempt index
`i`: `max_retries = 3`, `backoff_time = 1`. -/
def get_all_analyses_from (transport : Nat → Option α) (i : Nat) :
    Option α × Nat × List Nat :=
  get_all_analyses_go transport 3 i 1

/-- `get_all_analyses(limit)` from `database.py`: 3 attempts of fuel,
initial backoff 1 second. -/
def get_all_analyses (transport : Nat → Option α) : Option α × Nat × List Nat :=
  get_all_analyses_from transport 0

/-- The module-level `while retry_count < max_retries` loop of
`saved_analyses.py` that wraps `get_all_analyses(limit=50)`: on an escaped
exception it sleeps 1 second and calls `get_all_analyses` again, up to 3
calls, then gives up (`analyses = None`, an error message — modelled as
`none`).  Attempt indices continue across the inner calls. -/
def saved_analyses_go (transport : Nat → Option α) :
    Nat → Nat → Option α × Nat × List Nat
  | 0, _ => (none, 0, [])
  | fuel + 1, i =>
    match get_all_analyses_from transport i with
    | (some v, n, s) => (some v, n, s)
    | (none, n, s) =>
      match fuel with
      | 0 => (none, n, s)
      | _ + 1 =>
        ((saved_analyses_go transport fuel (i + n)).1,
          n + (saved_analyses_go transport fuel (i + n)).2.1,
          s ++ 1 :: (saved_analyses_go transport fuel (i + n)).2.2)

/-- One user-level retrieval on the Saved Analyses page: the retry loop of
`saved_analyses.py` with `max_retries = 3`. -/
def saved_analyses_page_load (transport : Nat → Option α) :
    Option α × Nat × List Nat :=
  saved_analyses_go transport 3 0

/-! ### Derived definitions used by the claims -/

/-- `midpoint_cpc(category)` from the specification: the default CPC, the
mean of the category's CPC range. -/
def midpoint_cpc (business_type : Category) : ℚ :=
  npMean2 (CPC_RANGES business_type).min (CPC_RANGES business_type).max

/-- A supplied override lies within the given category range; an absent
override is always acceptable (it defaults to the midpoint). -/
def inRangeOpt (r : MMRange) : Option ℚ → Prop
  | none => True
  | some v => r.min ≤ v ∧ v ≤ r.max

/-- Overrides within the category's plausible ranges: exactly the values the
application's sliders can produce (`app.py` bounds each slider by the
category range). -/
def validOverrides (business_type : Category) (params : Overrides) : Prop :=
  inRangeOpt (CPC_RANGES business_type) params.avg_cpc ∧
  inRangeOpt (CTR_RANGES business_type) params.ctr ∧
  inRangeOpt (CONVERSION_RATE_RANGES business_type) params.conversion_rate ∧
  inRangeOpt (AVG_ORDER_VALUE_RANGES business_type) params.avg_order_value

/-- Equality of every `AnalysisRecord` field except `notes` and
`is_saved`: id, creation timestamp, input fields, base-case metrics and the
two scenario blobs. -/
def sameFrozenFields (r r2 : AnalysisRecord) : Prop :=
  r.id = r2.id ∧ r.created_at = r2.created_at ∧
  r.website_url = r2.website_url ∧ r.budget = r2.budget ∧
  r.business_type = r2.business_type ∧ r.avg_cpc = r2.avg_cpc ∧
  r.ctr = r2.ctr ∧ r.conversion_rate = r2.conversion_rate ∧
  r.avg_order_value = r2.avg_order_value ∧ r.clicks = r2.clicks ∧
  r.impressions = r2.impressions ∧ r.conversions = r2.conversions ∧
  r.cost_per_conversion = r2.cost_per_conversion ∧ r.revenue = r2.revenue ∧
  r.roi = r2.roi ∧ r.roas = r2.roas ∧
  r.pessimistic_scenario = r2.pessimistic_scenario ∧
  r.optimistic_scenario = r2.optimistic_scenario

/-- A concrete row used to instantiate persistence theorems. -/
def sampleRecord : AnalysisRecord where
  id := 1
  created_at := 0
  website_url := "example.com"
  budget := some 10000
  business_type := "ecommerce"
  avg_cpc := some 10
  ctr := some (3/100)
  conversion_rate := some (2/100)
  avg_order_value := some 1400
  clicks := some 1000
  impressions := some (100000/3)
  conversions := some 20
  cost_per_conversion := some 500
  revenue := some 28000
  roi := some (9/5)
  roas := some (14/5)
  pessimistic_scenario := "{}"
  optimistic_scenario := "{}"
  notes := none
  is_saved := false

/-! ### Claims -/

/-- C7: for budget 10000, category ecommerce and no overrides, the base
case has clicks = 1000, conversions = 20, revenue = 28000, roi = 1.8 = 9/5
and roas = 2.8 = 14/5 exactly. -/
theorem C7_end_to_end_ecommerce_10000 :
    ∃ m, calculate_google_ads_metrics 10000 Category.ecommerce {} = some m ∧
      m.clicks = 1000 ∧ m.conversions = 20 ∧ m.revenue = 28000 ∧
      m.roi = 9/5 ∧ m.roas = 14/5 := by
  refine ⟨base_metrics 10000 Category.ecommerce {}, ?_, ?_, ?_, ?_, ?_, ?_⟩
  · norm_num [calculate_google_ads_metrics, resolve_avg_cpc, npMean2, CPC_RANGES]
  all_goals
    norm_num [base_metrics, resolve_avg_cpc, resolve_ctr, resolve_conversion_rate,
      resolve_avg_order_value, npMean2, CPC_RANGES, CTR_RANGES,
      CONVERSION_RATE_RANGES, AVG_ORDER_VALUE_RANGES]

/-- A parameter within its range, or defaulted to the range midpoint, lies
between the range's endpoints. -/
lemma getD_mid_bounds {r : MMRange} {o : Option ℚ} (hr : r.min ≤ r.max)
    (h : inRangeOpt r o) :
    r.min ≤ o.getD (npMean2 r.min r.max) ∧ o.getD (npMean2 r.min r.max) ≤ r.max := by
  cases o with
  | none =>
    constructor <;> simp [npMean2, Option.getD] <;> linarith
  | some v => simpa [Option.getD] using h

/-- Under in-range overrides every resolved parameter lies within its
category range. -/
lemma resolved_bounds (bt : Category) (p : Overrides) (hv : validOverrides bt p) :
    ((CPC_RANGES bt).min ≤ resolve_avg_cpc bt p ∧
      resolve_avg_cpc bt p ≤ (CPC_RANGES bt).max) ∧
    ((CONVERSION_RATE_RANGES bt).min ≤ resolve_conversion_rate bt p ∧
      resolve_conversion_rate bt p ≤ (CONVERSION_RATE_RANGES bt).max) ∧
    ((AVG_ORDER_VALUE_RANGES bt).min ≤ resolve_avg_order_value bt p ∧
      resolve_avg_order_value bt p ≤ (AVG_ORDER_VALUE_RANGES bt).max) := by
  obtain ⟨h1, h2, h3, h4⟩ := hv
  refine ⟨getD_mid_bounds ?_ h1, getD_mid_bounds ?_ h3, getD_mid_bounds ?_ h4⟩ <;>
    cases bt <;>
    norm_num [CPC_RANGES, CONVERSION_RATE_RANGES, AVG_ORDER_VALUE_RANGES]

/-- For a positive budget the ROAS the calculator returns is
`conversion_rate * avg_order_value / avg_cpc`. -/
lemma base_metrics_roas_eq (budget : ℚ) (bt : Category) (p : Overrides)
    (hb : 0 < budget) (hc : resolve_avg_cpc bt p ≠ 0) :
    (base_metrics budget bt p).roas =
      resolve_conversion_rate bt p * resolve_avg_order_value bt p /
        resolve_avg_cpc bt p := by
  have h1 : (base_metrics budget bt p).roas =
      if 0 < budget then
        (budget / resolve_avg_cpc bt p * resolve_conversion_rate bt p *
          resolve_avg_order_value bt p) / budget
      else 0 := rfl
  rw [h1, if_pos hb]
  have hb2 : budget ≠ 0 := ne_of_gt hb
  field_simp
  ring

/-- For a positive budget the ROI the calculator returns is ROAS − 1. -/
lemma base_metrics_roi_eq (budget : ℚ) (bt : Category) (p : Overrides)
    (hb : 0 < budget) :
    (base_metrics budget bt p).roi = (base_metrics budget bt p).roas - 1 := by
  have h1 : (base_metrics budget bt p).roi =
      if 0 < budget then
        (budget / resolve_avg_cpc bt p * resolve_conversion_rate bt p *
          resolve_avg_order_value bt p - budget) / budget
      else 0 := rfl
  have h2 : (base_metrics budget bt p).roas =
      if 0 < budget then
        (budget / resolve_avg_cpc bt p * resolve_conversion_rate bt p *
          resolve_avg_order_value bt p) / budget
      else 0 := rfl
  rw [h1, h2, if_pos hb, if_pos hb, sub_div, div_self (ne_of_gt hb)]

/-- The ROAS closed form `conv * aov / cpc` is monotone: it grows when the
rates grow and the CPC shrinks. -/
lemma roas_mono {c a q c2 a2 q2 : ℚ} (hc0 : 0 ≤ c2) (ha0 : 0 ≤ a2)
    (hq0 : 0 < q) (hc : c2 ≤ c) (ha : a2 ≤ a) (hq : q ≤ q2) :
    c2 * a2 / q2 ≤ c * a / q :=
  div_le_div₀ (mul_nonneg (hc0.trans hc) (ha0.trans ha))
    (mul_le_mul hc ha ha0 (hc0.trans hc)) hq0 hq

/-- C1 counterexample: the overrides `avg_cpc = 100`,
`conversion_rate = 1/1000`, `avg_order_value = 1` are valid base-case
overrides in the specification's sense (CPC > 0, rate in 0–1, AOV > 0),
yet the base case they produce has roas and roi strictly below the
pessimistic case — the pessimistic scenario is built from forced values
near the category range and does not track arbitrary base overrides. -/
theorem C1_counterexample_base_below_pessimistic :
    ∃ t, generate_detailed_analysis 1 Category.ecommerce
        { avg_cpc := some 100, conversion_rate := some (1/1000),
          avg_order_value := some 1 } = some t ∧
      t.1.roas < t.2.1.roas ∧ t.1.roi < t.2.1.roi := by
  have hb : calculate_google_ads_metrics 1 Category.ecommerce
      { avg_cpc := some 100, conversion_rate := some (1/1000),
        avg_order_value := some 1 } =
      some (base_metrics 1 Category.ecommerce
        { avg_cpc := some 100, conversion_rate := some (1/1000),
          avg_order_value := some 1 }) := by
    norm_num [calculate_google_ads_metrics, resolve_avg_cpc]
  have hp : calculate_google_ads_metrics 1 Category.ecommerce
      (pessimistic_params Category.ecommerce) =
      some (base_metrics 1 Category.ecommerce
        (pessimistic_params Category.ecommerce)) := by
    norm_num [calculate_google_ads_metrics, resolve_avg_cpc, pessimistic_params,
      CPC_RANGES]
  have ho : calculate_google_ads_metrics 1 Category.ecommerce
      (optimistic_params Category.ecommerce) =
      some (base_metrics 1 Category.ecommerce
        (optimistic_params Category.ecommerce)) := by
    norm_num [calculate_google_ads_metrics, resolve_avg_cpc, optimistic_params,
      CPC_RANGES]
  refine ⟨(base_metrics 1 Category.ecommerce
      { avg_cpc := some 100, conversion_rate := some (1/1000),
        avg_order_value := some 1 },
    base_metrics 1 Category.ecommerce (pessimistic_params Category.ecommerce),
    base_metrics 1 Category.ecommerce (optimistic_params Category.ecommerce)),
    ?_, ?_, ?_⟩
  · unfold generate_detailed_analysis
    rw [hb, hp, ho]
    rfl
  · norm_num [base_metrics, resolve_avg_cpc, resolve_ctr, resolve_conversion_rate,
      resolve_avg_order_value, pessimistic_params, npMean2, CPC_RANGES, CTR_RANGES,
      CONVERSION_RATE_RANGES, AVG_ORDER_VALUE_RANGES]
  · norm_num [base_metrics, resolve_avg_cpc, resolve_ctr, resolve_conversion_rate,
      resolve_avg_order_value, pessimistic_params, npMean2, CPC_RANGES, CTR_RANGES,
      CONVERSION_RATE_RANGES, AVG_ORDER_VALUE_RANGES]

/-- C1 amended: for every positive budget, every category and every
base-case overrides whose supplied values lie within the category's range
(exactly the values the application's sliders allow; absent values default
to the midpoint), the triple returned by `generate_detailed_analysis`
satisfies pessimistic.roi ≤ base.roi ≤ optimistic.roi and
pessimistic.roas ≤ base.roas ≤ optimistic.roas. -/
theorem C1_amended_scenario_ordering (budget : ℚ) (bt : Category)
    (params : Overrides) (hb : 0 < budget) (hv : validOverrides bt params) :
    ∃ b p o, generate_detailed_analysis budget bt params = some (b, p, o) ∧
      p.roi ≤ b.roi ∧ b.roi ≤ o.roi ∧ p.roas ≤ b.roas ∧ b.roas ≤ o.roas := by
  obtain ⟨⟨hc1, hc2⟩, ⟨hv1, hv2⟩, ⟨ha1, ha2⟩⟩ := resolved_bounds bt params hv
  have hmin_pos : 0 < (CPC_RANGES bt).min := by cases bt <;> norm_num [CPC_RANGES]
  have hcpc_pos : 0 < resolve_avg_cpc bt params := lt_of_lt_of_le hmin_pos hc1
  have hp_pos : 0 < resolve_avg_cpc bt (pessimistic_params bt) := by
    cases bt <;> norm_num [resolve_avg_cpc, pessimistic_params, CPC_RANGES]
  have ho_pos : 0 < resolve_avg_cpc bt (optimistic_params bt) := by
    cases bt <;> norm_num [resolve_avg_cpc, optimistic_params, CPC_RANGES]
  have hgb : calculate_google_ads_metrics budget bt params =
      some (base_metrics budget bt params) := by
    unfold calculate_google_ads_metrics
    rw [if_neg (ne_of_gt hcpc_pos)]
  have hgp : calculate_google_ads_metrics budget bt (pessimistic_params bt) =
      some (base_metrics budget bt (pessimistic_params bt)) := by
    unfold calculate_google_ads_metrics
    rw [if_neg (ne_of_gt hp_pos)]
  have hgo : calculate_google_ads_metrics budget bt (optimistic_params bt) =
      some (base_metrics budget bt (optimistic_params bt)) := by
    unfold calculate_google_ads_metrics
    rw [if_neg (ne_of_gt ho_pos)]
  have ep_c : resolve_avg_cpc bt (pessimistic_params bt) =
      (CPC_RANGES bt).max * (11/10) := rfl
  have ep_v : resolve_conversion_rate bt (pessimistic_params bt) =
      (CONVERSION_RATE_RANGES bt).min * (9/10) := rfl
  have ep_a : resolve_avg_order_value bt (pessimistic_params bt) =
      (AVG_ORDER_VALUE_RANGES bt).min * (9/10) := rfl
  have eo_c : resolve_avg_cpc bt (optimistic_params bt) =
      (CPC_RANGES bt).min * (9/10) := rfl
  have eo_v : resolve_conversion_rate bt (optimistic_params bt) =
      (CONVERSION_RATE_RANGES bt).max * (11/10) := rfl
  have eo_a : resolve_avg_order_value bt (optimistic_params bt) =
      (AVG_ORDER_VALUE_RANGES bt).max * (11/10) := rfl
  have hroas_p : (base_metrics budget bt (pessimistic_params bt)).roas ≤
      (base_metrics budget bt params).roas := by
    rw [base_metrics_roas_eq budget bt (pessimistic_params bt) hb (ne_of_gt hp_pos),
      base_metrics_roas_eq budget bt params hb (ne_of_gt hcpc_pos),
      ep_c, ep_v, ep_a]
    cases bt with
    | ecommerce =>
      norm_num [CPC_RANGES, CONVERSION_RATE_RANGES, AVG_ORDER_VALUE_RANGES]
        at hc1 hc2 hv1 hv2 ha1 ha2
      refine roas_mono ?_ ?_ hcpc_pos ?_ ?_ ?_ <;>
        norm_num [CPC_RANGES, CONVERSION_RATE_RANGES, AVG_ORDER_VALUE_RANGES] <;>
        linarith
    | services =>
      norm_num [CPC_RANGES, CONVERSION_RATE_RANGES, AVG_ORDER_VALUE_RANGES]
        at hc1 hc2 hv1 hv2 ha1 ha2
      refine roas_mono ?_ ?_ hcpc_pos ?_ ?_ ?_ <;>
        norm_num [CPC_RANGES, CONVERSION_RATE_RANGES, AVG_ORDER_VALUE_RANGES] <;>
        linarith
  have hroas_o : (base_metrics budget bt params).roas ≤
      (base_metrics budget bt (optimistic_params bt)).roas := by
    rw [base_metrics_roas_eq budget bt (optimistic_params bt) hb (ne_of_gt ho_pos),
      base_metrics_roas_eq budget bt params hb (ne_of_gt hcpc_pos),
      eo_c, eo_v, eo_a]
    cases bt with
    | ecommerce =>
      norm_num [CPC_RANGES, CONVERSION_RATE_RANGES, AVG_ORDER_VALUE_RANGES]
        at hc1 hc2 hv1 hv2 ha1 ha2
      refine roas_mono ?_ ?_ ?_ ?_ ?_ ?_ <;>
        norm_num [CPC_RANGES, CONVERSION_RATE_RANGES, AVG_ORDER_VALUE_RANGES] <;>
        linarith
    | services =>
      norm_num [CPC_RANGES, CONVERSION_RATE_RANGES, AVG_ORDER_VALUE_RANGES]
        at hc1 hc2 hv1 hv2 ha1 ha2
      refine roas_mono ?_ ?_ ?_ ?_ ?_ ?_ <;>
        norm_num [CPC_RANGES, CONVERSION_RATE_RANGES, AVG_ORDER_VALUE_RANGES] <;>
        linarith
  have hroi_p : (base_metrics budget bt (pessimistic_params bt)).roi ≤
      (base_metrics budget bt params).roi := by
    rw [base_metrics_roi_eq budget bt (pessimistic_params bt) hb,
      base_metrics_roi_eq budget bt params hb]
    exact sub_le_sub_right hroas_p 1
  have hroi_o : (base_metrics budget bt params).roi ≤
      (base_metrics budget bt (optimistic_params bt)).roi := by
    rw [base_metrics_roi_eq budget bt (optimistic_params bt) hb,
      base_metrics_roi_eq budget bt params hb]
    exact sub_le_sub_right hroas_o 1
  refine ⟨base_metrics budget bt params,
    base_metrics budget bt (pessimistic_params bt),
    base_metrics budget bt (optimistic_params bt), ?_, hroi_p, hroi_o, hroas_p,
    hroas_o⟩
  unfold generate_detailed_analysis
  rw [hgb, hgp, hgo]
  rfl

/-- C1 amended, witness at budget 10000, ecommerce, no overrides. -/
theorem C1_amended_scenario_ordering_witness :
    ∃ b p o, generate_detailed_analysis 10000 Category.ecommerce {} =
        some (b, p, o) ∧
      p.roi ≤ b.roi ∧ b.roi ≤ o.roi ∧ p.roas ≤ b.roas ∧ b.roas ≤ o.roas :=
  C1_amended_scenario_ordering 10000 Category.ecommerce {} (by norm_num)
    ⟨trivial, trivial, trivial, trivial⟩

/-- C2 counterexample: the claim says every division with a zero divisor
degrades to 0 and the calculator never fails, but the division
`clicks = budget / avg_cpc` in `calculate_google_ads_metrics` has no zero
guard: with the override `avg_cpc = 0` the source raises
`ZeroDivisionError` (the `none` outcome) instead of degrading to 0. -/
theorem C2_counterexample_zero_cpc_raises :
    calculate_google_ads_metrics 100 Category.ecommerce { avg_cpc := some 0 } =
      none := by
  norm_num [calculate_google_ads_metrics, resolve_avg_cpc]

/-- C2 amended: the calculator is total whenever the resolved `avg_cpc` is
non-zero (the only unguarded divisor); every guarded division degrades to
0, and in particular `compute(0, cat, {})` returns `roi = 0`, `roas = 0`
and `cost_per_conversion = 0` rather than an error. -/
theorem C2_amended_totality :
    (∀ (budget : ℚ) (business_type : Category) (params : Overrides),
        resolve_avg_cpc business_type params ≠ 0 →
        (calculate_google_ads_metrics budget business_type params).isSome = true) ∧
    (∀ business_type : Category,
        ∃ m, calculate_google_ads_metrics 0 business_type {} = some m ∧
          m.roi = 0 ∧ m.roas = 0 ∧ m.cost_per_conversion = 0) := by
  constructor
  · intro budget business_type params h
    simp [calculate_google_ads_metrics, h]
  · intro business_type
    refine ⟨base_metrics 0 business_type {}, ?_, ?_, ?_, ?_⟩
    · cases business_type <;>
        norm_num [calculate_google_ads_metrics, resolve_avg_cpc, npMean2, CPC_RANGES]
    all_goals cases business_type <;>
      norm_num [base_metrics, resolve_avg_cpc, resolve_ctr, resolve_conversion_rate,
        resolve_avg_order_value, npMean2, CPC_RANGES, CTR_RANGES,
        CONVERSION_RATE_RANGES, AVG_ORDER_VALUE_RANGES]

/-- C2 amended, witness at a concrete input with the hypothesis
discharged. -/
theorem C2_amended_totality_witness :
    (calculate_google_ads_metrics 1 Category.ecommerce {}).isSome = true :=
  C2_amended_totality.1 1 Category.ecommerce {}
    (by norm_num [resolve_avg_cpc, npMean2, CPC_RANGES])

/-- C6: with no overrides, every parameter resolves to the midpoint of its
category range and `clicks` equals budget divided by the midpoint CPC. -/
theorem C6_defaults_midpoint_clicks (budget : ℚ) (business_type : Category)
    (_hb : 0 < budget) :
    ∃ m, calculate_google_ads_metrics budget business_type {} = some m ∧
      m.avg_cpc = midpoint_cpc business_type ∧
      m.ctr = npMean2 (CTR_RANGES business_type).min (CTR_RANGES business_type).max ∧
      m.conversion_rate = npMean2 (CONVERSION_RATE_RANGES business_type).min
        (CONVERSION_RATE_RANGES business_type).max ∧
      m.avg_order_value = npMean2 (AVG_ORDER_VALUE_RANGES business_type).min
        (AVG_ORDER_VALUE_RANGES business_type).max ∧
      m.clicks = budget / midpoint_cpc business_type := by
  refine ⟨base_metrics budget business_type {}, ?_, rfl, rfl, rfl, rfl, rfl⟩
  cases business_type <;>
    norm_num [calculate_google_ads_metrics, resolve_avg_cpc, npMean2, CPC_RANGES]

/-- C6 witness at a concrete input with the hypothesis discharged. -/
theorem C6_defaults_midpoint_clicks_witness :
    ∃ m, calculate_google_ads_metrics 10000 Category.ecommerce {} = some m ∧
      m.avg_cpc = midpoint_cpc Category.ecommerce ∧
      m.ctr = npMean2 (CTR_RANGES Category.ecommerce).min
        (CTR_RANGES Category.ecommerce).max ∧
      m.conversion_rate = npMean2 (CONVERSION_RATE_RANGES Category.ecommerce).min
        (CONVERSION_RATE_RANGES Category.ecommerce).max ∧
      m.avg_order_value = npMean2 (AVG_ORDER_VALUE_RANGES Category.ecommerce).min
        (AVG_ORDER_VALUE_RANGES Category.ecommerce).max ∧
      m.clicks = 10000 / midpoint_cpc Category.ecommerce :=
  C6_defaults_midpoint_clicks 10000 Category.ecommerce (by norm_num)

/-- C3 counterexample: the claim says `validate_budget("-5")` is Invalid,
but `re.sub(r'[^\x5cd.]', '', "-5")` strips the minus sign, the remainder
`"5"` parses to 5.0 > 0, and the validator returns valid with value 5. -/
theorem C3_counterexample_minus_five_accepted :
    validate_budget ("-5".data) = (true, some 5) := by
  simp +decide only [validate_budget,
    show stripNonNumeric ("-5".data) = ['5'] from by decide]

/-- C3 amended: `validate_budget` strips every character that is not a
digit or a decimal point, parses the remainder as a number, and succeeds
exactly when the parsed value is strictly positive; `"1,000.50 UAH"` is
valid with value 1000.50, empty and whitespace-only input are Invalid, but
`"-5"` is valid with value 5 because the minus sign is stripped before
parsing. -/
theorem C3_amended_validate_budget :
    validate_budget ("1,000.50 UAH".data) = (true, some (2001/2)) ∧
    validate_budget ("-5".data) = (true, some 5) ∧
    validate_budget ("".data) = (false, none) ∧
    validate_budget ("   ".data) = (false, none) ∧
    ∀ s : List Char, (validate_budget s).1 = true ↔
      ∃ v, parseFloatQ (stripNonNumeric s) = some v ∧ 0 < v := by
  refine ⟨?_, ?_, ?_, ?_, ?_⟩
  · simp only [validate_budget,
      show stripNonNumeric ("1,000.50 UAH".data) = "1000.50".data from by decide]
    norm_num +decide [parseFloatQ, digitsToNat,
      show '1'.toNat = 49 from rfl, show '5'.toNat = 53 from rfl,
      show '0'.toNat = 48 from rfl]
  · simp +decide only [validate_budget,
      show stripNonNumeric ("-5".data) = ['5'] from by decide]
  · norm_num [validate_budget]
  · simp only [validate_budget,
      show stripNonNumeric ("   ".data) = [] from by decide]
    norm_num +decide [parseFloatQ]
  · intro s
    unfold validate_budget
    by_cases hs : s = []
    · subst hs
      simp [show stripNonNumeric ([] : List Char) = [] from rfl, parseFloatQ]
    · rw [if_neg hs]
      cases hp : parseFloatQ (stripNonNumeric s) with
      | none => simp
      | some v =>
        rcases le_or_lt v 0 with hv | hv
        · simp [if_pos hv]
          exact hv
        · simp [if_neg (not_le.mpr hv)]
          exact hv

/-- C3 amended, witness: the general characterization applied at the
concrete input `"7"`. -/
theorem C3_amended_validate_budget_witness :
    (validate_budget ("7".data)).1 = true ↔
      ∃ v, parseFloatQ (stripNonNumeric ("7".data)) = some v ∧ 0 < v :=
  C3_amended_validate_budget.2.2.2.2 ("7".data)

/-- Parsing `http://` ++ url: `urlparse` assigns the scheme `http` and
reads the netloc from `url` itself. -/
lemma schemeRest_append_http (url : List Char) :
    schemeRest ("http://".data ++ url) = url := by
  unfold schemeRest
  rw [if_pos (List.isPrefixOf_iff_prefix.mpr (List.prefix_append _ _)),
    show (7 : Nat) = ("http://".data).length from by decide, List.drop_left]

/-- A string with neither scheme marker is its own netloc source. -/
lemma schemeRest_no_scheme (url : List Char)
    (h1 : ("http://".data).isPrefixOf url = false)
    (h2 : ("https://".data).isPrefixOf url = false) :
    schemeRest url = url := by
  unfold schemeRest
  rw [if_neg (by simp [h1]), if_neg (by simp [h2])]

/-- C4 counterexample: the claim says `validate_url("not a url")` returns
false, but `urlparse("http://not a url")` assigns the truthy netloc
`"not a url"` — no character validation of the host is performed — so the
source returns `True`. -/
theorem C4_counterexample_not_a_url_accepted :
    validate_url ("not a url".data) = true := by decide

/-- C4 amended: `validate_url` treats an input lacking a scheme prefix
exactly as if `http://` were prepended, and returns true exactly when the
input is non-empty, the host component (up to the first `/`, `?` or `#`)
is non-empty, and its square brackets are consistent; the characters of
the host are not otherwise validated, so `validate_url("example.com")`
and `validate_url("not a url")` both return true. -/
theorem C4_amended_validate_url :
    (∀ url : List Char,
        ("http://".data).isPrefixOf url = false →
        ("https://".data).isPrefixOf url = false →
        validate_url url = validate_url ("http://".data ++ url)) ∧
    validate_url ("example.com".data) = true ∧
    validate_url ("not a url".data) = true ∧
    validate_url ("".data) = false ∧
    ∀ url : List Char, validate_url url = true ↔
      (url ≠ [] ∧ urlNetloc (schemeRest url) ≠ [] ∧
        bracketsConsistent (urlNetloc (schemeRest url)) = true) := by
  refine ⟨?_, by decide, by decide, by decide, ?_⟩
  · intro url h1 h2
    by_cases hu : url = []
    · subst hu; decide
    · unfold validate_url
      rw [if_neg hu, if_neg (by simp), schemeRest_append_http,
        schemeRest_no_scheme url h1 h2]
  · intro url
    unfold validate_url
    by_cases hu : url = []
    · subst hu; simp
    · rw [if_neg hu]
      simp [hu, List.isEmpty_iff]
      tauto

/-- C4 amended, witness: scheme defaulting applied at the concrete input
`"example.com"`, hypotheses discharged by evaluation. -/
theorem C4_amended_validate_url_witness :
    validate_url ("example.com".data) =
      validate_url ("http://".data ++ "example.com".data) :=
  C4_amended_validate_url.1 ("example.com".data) (by decide) (by decide)

/-- The inner retry loop of `get_all_analyses` makes at most `fuel`
underlying attempts. -/
lemma ga_go_attempts_le (t : Nat → Option α) :
    ∀ (fuel i b : Nat), (get_all_analyses_go t fuel i b).2.1 ≤ fuel
  | 0, _, _ => by simp [get_all_analyses_go]
  | fuel + 1, i, b => by
    cases ht : t i with
    | some v => simp [get_all_analyses_go, ht]
    | none =>
      cases fuel with
      | zero => simp [get_all_analyses_go, ht]
      | succ f2 =>
        have h := ga_go_attempts_le t (f2 + 1) (i + 1) (2 * b)
        simp only [get_all_analyses_go, ht] at h ⊢
        omega

/-- The page-level loop of `saved_analyses.py` makes at most `3 * fuel`
underlying attempts: each of its calls into `get_all_analyses` makes at
most 3. -/
lemma sa_go_attempts_le (t : Nat → Option α) :
    ∀ (fuel i : Nat), (saved_analyses_go t fuel i).2.1 ≤ 3 * fuel
  | 0, _ => by simp [saved_analyses_go]
  | fuel + 1, i => by
    have hin : (get_all_analyses_from t i).2.1 ≤ 3 := ga_go_attempts_le t 3 i 1
    rcases hga : get_all_analyses_from t i with ⟨r, n, s⟩
    rw [hga] at hin
    cases r with
    | some v =>
      simp [saved_analyses_go, hga]
      simp at hin
      omega
    | none =>
      cases fuel with
      | zero =>
        simp [saved_analyses_go, hga]
        simp at hin
        omega
      | succ f2 =>
        have h2 := sa_go_attempts_le t (f2 + 1) (i + n)
        simp only [saved_analyses_go, hga] at h2 ⊢
        simp at hin
        omega

/-- C5 counterexample: with a transport that always fails, one user-level
retrieval on the Saved Analyses page makes 9 underlying attempts (the
page loop retries the whole 3-attempt `get_all_analyses` 3 times), not at
most 3 as claimed; and the backoff pauses actually slept inside one
`get_all_analyses` call are 1s and 2s — the 4s pause never happens,
because the loop re-raises immediately after the third failed attempt. -/
theorem C5_counterexample_nine_attempts :
    (saved_analyses_page_load (fun _ => (none : Option Unit))).2.1 = 9 ∧
    (get_all_analyses (fun _ => (none : Option Unit))).2.2 = [1, 2] := by
  decide

/-- C5 amended: `get_all_analyses` makes at most 3 underlying attempts and,
when it fails, it makes exactly 3 attempts with backoff pauses of 1s and 2s
between them before re-raising; the page-level loop in `saved_analyses.py`
additionally retries the whole call up to 3 times, so one user-level
retrieval makes at most 9 underlying attempts. -/
theorem C5_amended_retry_bounds {α : Type} (transport : Nat → Option α) :
    (get_all_analyses transport).2.1 ≤ 3 ∧
    ((get_all_analyses transport).1 = none →
      (get_all_analyses transport).2.1 = 3 ∧
      (get_all_analyses transport).2.2 = [1, 2]) ∧
    (saved_analyses_page_load transport).2.1 ≤ 9 := by
  refine ⟨ga_go_attempts_le transport 3 0 1, ?_,
    by simpa using sa_go_attempts_le transport 3 0⟩
  intro hnone
  cases h0 : transport 0 with
  | some v =>
    simp [get_all_analyses, get_all_analyses_from, get_all_analyses_go, h0] at hnone
  | none =>
    cases h1 : transport 1 with
    | some v =>
      simp [get_all_analyses, get_all_analyses_from, get_all_analyses_go, h0, h1] at hnone
    | none =>
      cases h2 : transport 2 with
      | some v =>
        simp [get_all_analyses, get_all_analyses_from, get_all_analyses_go, h0, h1, h2] at hnone
      | none =>
        simp [get_all_analyses, get_all_analyses_from, get_all_analyses_go, h0, h1, h2]

/-- C5 amended, witness: the failure case evaluated on the always-failing
transport. -/
theorem C5_amended_retry_bounds_witness :
    (get_all_analyses (fun _ => (none : Option Unit))).2.1 = 3 ∧
    (get_all_analyses (fun _ => (none : Option Unit))).2.2 = [1, 2] :=
  (C5_amended_retry_bounds (fun _ => none)).2.1 (by decide)

/-- `sameFrozenFields` is reflexive. -/
lemma sameFrozenFields_refl (r : AnalysisRecord) : sameFrozenFields r r := by
  simp [sameFrozenFields]

/-- Pointwise reflexivity of the frozen-fields relation on a table. -/
lemma forall₂_frozen_refl : ∀ l : List AnalysisRecord,
    List.Forall₂ sameFrozenFields l l
  | [] => List.Forall₂.nil
  | r :: rs => List.Forall₂.cons (sameFrozenFields_refl r) (forall₂_frozen_refl rs)

/-- `update_analysis_notes` never changes any field other than `notes` and
`is_saved` of any row: the old and new tables are pointwise related by
`sameFrozenFields`. -/
lemma update_notes_frame (analysis_id : Nat) (notes : String) (fav : Option Bool) :
    ∀ db : List AnalysisRecord,
      List.Forall₂ sameFrozenFields db (update_analysis_notes db analysis_id notes fav).1
  | [] => by simp [update_analysis_notes]
  | r :: rs => by
    by_cases h : r.id = analysis_id
    · simp only [update_analysis_notes, if_pos h]
      exact List.Forall₂.cons (by simp [sameFrozenFields]) (forall₂_frozen_refl rs)
    · simp only [update_analysis_notes, if_neg h]
      exact List.Forall₂.cons (sameFrozenFields_refl r)
        (update_notes_frame analysis_id notes fav rs)

/-- When a row with the requested id exists, `update_analysis_notes`
returns `True`. -/
lemma update_notes_found (analysis_id : Nat) (notes : String) (fav : Option Bool) :
    ∀ db : List AnalysisRecord, (∃ r ∈ db, r.id = analysis_id) →
      (update_analysis_notes db analysis_id notes fav).2 = true
  | [], h => by simp at h
  | r :: rs, h => by
    by_cases hr : r.id = analysis_id
    · simp [update_analysis_notes, hr]
    · rcases h with ⟨r2, hmem, hid⟩
      rcases List.mem_cons.mp hmem with h1 | h1
      · subst h1; exact absurd hid hr
      · simp only [update_analysis_notes, if_neg hr]
        exact update_notes_found analysis_id notes fav rs ⟨r2, h1, hid⟩

/-- When no row has the requested id, `update_analysis_notes` is a no-op
returning `False`. -/
lemma update_notes_not_found (analysis_id : Nat) (notes : String) (fav : Option Bool) :
    ∀ db : List AnalysisRecord, (∀ r ∈ db, r.id ≠ analysis_id) →
      update_analysis_notes db analysis_id notes fav = (db, false)
  | [], _ => rfl
  | r :: rs, h => by
    have hr : r.id ≠ analysis_id := h r (List.mem_cons_self r rs)
    have ih := update_notes_not_found analysis_id notes fav rs
      (fun r2 hm => h r2 (List.mem_cons_of_mem r hm))
    simp [update_analysis_notes, if_neg hr, ih]

/-- C8: when a record with the id exists, `update_analysis_notes` returns
true and mutates only the notes / favorite fields — every other field of
every row (id, creation timestamp, inputs, base-case metrics, both
scenario blobs) is unchanged; when the id does not exist it is a no-op
returning false. -/
theorem C8_update_notes_frame (db : List AnalysisRecord) (analysis_id : Nat)
    (notes : String) (fav : Option Bool) :
    ((∃ r ∈ db, r.id = analysis_id) →
      (update_analysis_notes db analysis_id notes fav).2 = true) ∧
    ((∀ r ∈ db, r.id ≠ analysis_id) →
      update_analysis_notes db analysis_id notes fav = (db, false)) ∧
    List.Forall₂ sameFrozenFields db
      (update_analysis_notes db analysis_id notes fav).1 :=
  ⟨update_notes_found analysis_id notes fav db,
   update_notes_not_found analysis_id notes fav db,
   update_notes_frame analysis_id notes fav db⟩

/-- C8 witness: a concrete one-row table whose row has the requested id. -/
theorem C8_update_notes_frame_witness :
    (update_analysis_notes [sampleRecord] 1 "note" (some true)).2 = true :=
  (C8_update_notes_frame [sampleRecord] 1 "note" (some true)).1
    ⟨sampleRecord, List.mem_singleton.mpr rfl, rfl⟩

/-- C9: `generate_detailed_analysis` is deterministic — the embedding of
the source is a pure function of (budget, category, overrides), with no
random or ambient input, so two calls with identical arguments return
identical triples. -/
theorem C9_analyze_deterministic (budget : ℚ) (business_type : Category)
    (params : Overrides) :
    generate_detailed_analysis budget business_type params =
      generate_detailed_analysis budget business_type params := rfl

/-- C9 witness at concrete input. -/
theorem C9_analyze_deterministic_witness :
    generate_detailed_analysis 10000 Category.ecommerce {} =
      generate_detailed_analysis 10000 Category.ecommerce {} :=
  C9_analyze_deterministic 10000 Category.ecommerce {}

/-- C10: every metrics record returned by `calculate_google_ads_metrics`
has `monthly_revenue` equal to `revenue` — the source assigns
`monthly_revenue = revenue` verbatim. -/
theorem C10_monthly_revenue_copies_revenue (budget : ℚ)
    (business_type : Category) (params : Overrides) (m : Metrics)
    (h : calculate_google_ads_metrics budget business_type params = some m) :
    m.monthly_revenue = m.revenue := by
  unfold calculate_google_ads_metrics at h
  split at h
  · exact absurd h (by simp)
  · cases h
    rfl

/-- C10 witness at concrete input. -/
theorem C10_monthly_revenue_copies_revenue_witness :
    (base_metrics 1 Category.ecommerce {}).monthly_revenue =
      (base_metrics 1 Category.ecommerce {}).revenue :=
  C10_monthly_revenue_copies_revenue 1 Category.ecommerce {} _
    (by norm_num [calculate_google_ads_metrics, resolve_avg_cpc, npMean2, CPC_RANGES])

end AdsAnalyzer
